import Mathlib

/-!
Verification development for the plot-grid axis-state engine (src/core.js).

The source is shallowly embedded: JavaScript numbers are modelled by the type
`JSVal` (NaN, the two infinities, and exact rationals for the finite values;
IEEE rounding of finite results is abstracted away, the special-value rules of
IEEE-754 arithmetic are kept).  External collaborators of the core (the
color-alpha blend, parse-unit, to-px and the JS builtin parseFloat used for
hashmap label keys) are gathered in an `Externals` record and quantified over.
The `clamp` helper comes from the mumath dependency (order-detecting clamp:
`max > min ? Math.max(Math.min(a, max), min) : Math.max(Math.min(a, min), max)`);
none of the verified claims is sensitive to the branch choice, all concrete
inputs used below have ordered bounds or NaN outcomes on which both common
variants of clamp agree.
-/

/-- A JavaScript number: NaN, +Infinity, -Infinity, or a finite value
(modelled as an exact rational; -0 is identified with 0). -/
inductive JSVal where
  | nan : JSVal
  | inf : JSVal
  | neginf : JSVal
  | fin (q : ℚ) : JSVal
deriving DecidableEq, Repr

namespace JSVal

/-- JS unary minus. -/
def jsNeg : JSVal → JSVal
  | nan => nan
  | inf => neginf
  | neginf => inf
  | fin q => fin (-q)

/-- JS addition with IEEE special-value rules (finite arithmetic exact). -/
def jsAdd : JSVal → JSVal → JSVal
  | nan, _ => nan
  | _, nan => nan
  | inf, neginf => nan
  | neginf, inf => nan
  | inf, _ => inf
  | _, inf => inf
  | neginf, _ => neginf
  | _, neginf => neginf
  | fin a, fin b => fin (a + b)

/-- JS subtraction. -/
def jsSub (a b : JSVal) : JSVal := jsAdd a (jsNeg b)

/-- JS multiplication with IEEE special-value rules: Infinity times zero is
NaN, Infinity times a nonzero finite value keeps the product sign. -/
def jsMul : JSVal → JSVal → JSVal
  | nan, _ => nan
  | _, nan => nan
  | inf, inf => inf
  | inf, neginf => neginf
  | neginf, inf => neginf
  | neginf, neginf => inf
  | inf, fin q => if q = 0 then nan else if 0 < q then inf else neginf
  | fin q, inf => if q = 0 then nan else if 0 < q then inf else neginf
  | neginf, fin q => if q = 0 then nan else if 0 < q then neginf else inf
  | fin q, neginf => if q = 0 then nan else if 0 < q then neginf else inf
  | fin a, fin b => fin (a * b)

/-- JS division (signed zero not modelled: a finite value divided by zero
follows the numerator sign, 0/0 is NaN). -/
def jsDiv : JSVal → JSVal → JSVal
  | nan, _ => nan
  | _, nan => nan
  | inf, inf => nan
  | inf, neginf => nan
  | neginf, inf => nan
  | neginf, neginf => nan
  | inf, fin q => if 0 ≤ q then inf else neginf
  | neginf, fin q => if 0 ≤ q then neginf else inf
  | fin _, inf => fin 0
  | fin _, neginf => fin 0
  | fin a, fin b =>
      if b = 0 then (if a = 0 then nan else if 0 < a then inf else neginf)
      else fin (a / b)

/-- JS strict comparison `a < b` (false whenever NaN is involved). -/
def jsLtb : JSVal → JSVal → Bool
  | nan, _ => false
  | _, nan => false
  | neginf, neginf => false
  | neginf, _ => true
  | _, neginf => false
  | inf, _ => false
  | fin _, inf => true
  | fin a, fin b => decide (a < b)

/-- JS Math.min (NaN absorbing). -/
def jsMin : JSVal → JSVal → JSVal
  | nan, _ => nan
  | _, nan => nan
  | a, b => if jsLtb a b then a else b

/-- JS Math.max (NaN absorbing). -/
def jsMax : JSVal → JSVal → JSVal
  | nan, _ => nan
  | _, nan => nan
  | a, b => if jsLtb a b then b else a

/-- The mumath `clamp(a, min, max)` helper used by core.js:
`max > min ? Math.max(Math.min(a, max), min) : Math.max(Math.min(a, min), max)`. -/
def jsClamp (a mn mx : JSVal) : JSVal :=
  if jsLtb mn mx then jsMax (jsMin a mx) mn else jsMax (jsMin a mn) mx

/-- JS truthiness of a number: NaN and 0 are falsy. -/
def truthy : JSVal → Bool
  | nan => false
  | fin q => decide (q ≠ 0)
  | _ => true

/-- JS `a || 0` on a number. -/
def jsOrZero (a : JSVal) : JSVal := if truthy a then a else fin 0

/-- JS strict equality `===` on numbers: NaN is not equal to itself. -/
def jsStrictEq : JSVal → JSVal → Bool
  | nan, _ => false
  | _, nan => false
  | inf, inf => true
  | neginf, neginf => true
  | fin a, fin b => decide (a = b)
  | _, _ => false

end JSVal

open JSVal

/-- Array.prototype.indexOf over JS numbers (strict equality, -1 if absent). -/
def jsIndexOf (l : List JSVal) (v : JSVal) : Int :=
  match l with
  | [] => -1
  | a :: rest =>
      if jsStrictEq a v then 0
      else
        let r := jsIndexOf rest v
        if r < 0 then -1 else r + 1

/-- Number.MAX_VALUE as an exact rational. -/
def maxNumber : ℚ := (2 ^ 53 - 1) * 2 ^ 971

/-- Number.EPSILON as an exact rational. -/
def epsilonNumber : ℚ := 1 / 2 ^ 52

/-- Viewport rectangle `[left, top, width, height]`. -/
structure Viewport where
  left : JSVal
  top : JSVal
  width : JSVal
  height : JSVal

/-- A pan-zoom gesture event `{dx, dy, dz, x, y}`. -/
structure Ev where
  dx : JSVal
  dy : JSVal
  dz : JSVal
  x : JSVal
  y : JSVal

/-- Axis orientation; core.js computes states only for the x and y axes
(`Grid.prototype.x` / `Grid.prototype.y` carry the orientation-bound
getRange/getRatio functions, modelled by `getRangeFor`/`getRatioFor`). -/
inductive Orient where
  | x : Orient
  | y : Orient
deriving DecidableEq, Repr

/-- A color-ish config field: a plain number (alpha to blend with `color`),
an explicit color string, or unset. -/
inductive ColorOpt where
  | num (a : JSVal) : ColorOpt
  | str (s : String) : ColorOpt
  | unset : ColorOpt

/-- A fontSize config field: number of pixels or a unit string. -/
inductive FontOpt where
  | num (v : JSVal) : FontOpt
  | str (s : String) : FontOpt

/-- The scalar (non-function) fields of an axis configuration.  This is the
part of the in-progress state's `lines` that generator callbacks can observe
in the model (the source passes the whole mutable state object; the model
exposes the data fields plus the numeric in-progress fields via `GenView`). -/
structure ConfigData where
  disabled : Bool
  type : Option String
  orientation : Orient
  min : JSVal
  max : JSVal
  offset : JSVal
  origin : JSVal
  scale : JSVal
  minScale : JSVal
  maxScale : JSVal
  pan : Bool
  zoom : Bool
  tick : JSVal
  subtick : JSVal
  tickAlign : JSVal
  lineWidth : JSVal
  axisWidth : JSVal
  color : Option String
  lineColor : ColorOpt
  sublineColor : ColorOpt
  axisColor : ColorOpt
  fontSize : FontOpt
  fontFamily : Option String

/-- The resolved `state.values`: `values = lines.lines || []` leaves the
boolean `true` in place (non-array), any other non-function value gives a
list (false gives `[]`, a literal array passes through). -/
inductive ValuesVal where
  | btrue : ValuesVal
  | arr (l : List JSVal) : ValuesVal
deriving DecidableEq, Repr

/-- The resolved `state.subvalues`: literal passthrough of `lines.sublines`
(booleans and undefined included) or a derived list. -/
inductive SubRes where
  | jsTrue : SubRes
  | jsFalse : SubRes
  | undefV : SubRes
  | arr (l : List JSVal) : SubRes
deriving DecidableEq, Repr

/-- What a generator callback can observe of the in-progress state: the
config data, the viewport and the numeric fields assigned so far
(`state.scale` is undefined outside the subline auto-derivation). -/
structure GenView where
  cfg : ConfigData
  viewport : Viewport
  range : JSVal
  offset : JSVal
  scale : Option JSVal
  values : Option ValuesVal
  subvalues : Option SubRes

/-- A label as stored in `state.labels`: null, a number, or a string. -/
inductive LabelVal where
  | nullL : LabelVal
  | num (v : JSVal) : LabelVal
  | str (s : String) : LabelVal
deriving DecidableEq, Repr

/-- The resolved `state.labels`: the boolean `true` (when `labels === true`
and `values` is the boolean `true`) or a list. -/
inductive LabRes where
  | btrue : LabRes
  | arr (l : List LabelVal) : LabRes
deriving DecidableEq, Repr

/-- What a labels generator may return: a sequence, or a plain object
(hashmap from stringified values to labels) which triggers the
`isObj(labels)` conversion branch. -/
inductive LabelsRet where
  | list (l : List LabelVal) : LabelsRet
  | obj (m : List (String × LabelVal)) : LabelsRet

/-- The `lines` config field: boolean, literal sequence, or generator. -/
inductive LinesOpt where
  | bool (b : Bool) : LinesOpt
  | vals (l : List JSVal) : LinesOpt
  | fn (g : GenView → List JSVal) : LinesOpt

/-- The `sublines` config field (undefined is distinguished from `true`
because the source tests `sublines === true || sublines === undefined`). -/
inductive SublinesOpt where
  | bool (b : Bool) : SublinesOpt
  | undef : SublinesOpt
  | vals (l : List JSVal) : SublinesOpt
  | fn (g : GenView → List JSVal) : SublinesOpt

/-- The `labels` config field.  A config-level plain-object mapping is the
`mapping` variant; note the source's dispatch sends it to the null-fill
branch (it is neither `true`, a Function, nor an Array). -/
inductive LabelsOpt where
  | bool (b : Bool) : LabelsOpt
  | undef : LabelsOpt
  | seq (l : List LabelVal) : LabelsOpt
  | mapping (m : List (String × LabelVal)) : LabelsOpt
  | fn (g : GenView → LabelsRet) : LabelsOpt

/-- The `padding` config field: scalar, 4-array, or function of the state. -/
inductive PaddingOpt where
  | num (p : JSVal) : PaddingOpt
  | arr (l : List JSVal) : PaddingOpt
  | fn (g : GenView → List JSVal) : PaddingOpt

/-- A full axis configuration: scalar data plus the value-or-function
fields. -/
structure Config extends ConfigData where
  lines : LinesOpt
  sublines : SublinesOpt
  labels : LabelsOpt
  padding : PaddingOpt

/-- External collaborators used by calcLines: color-alpha blending,
parse-unit, to-px, and the JS builtin parseFloat applied to hashmap label
keys.  All are quantified over in the theorems. -/
structure Externals where
  alphaFn : Option String → JSVal → String
  parseUnit : String → JSVal × String
  toPx : String → JSVal
  parseFloat : String → JSVal

/-- The axis state computed by `Grid.prototype.calcLines` (the `grid` and
`opposite` back-references carry no data relevant to the claims and are
omitted). -/
structure State where
  lines : Config
  viewport : Viewport
  range : JSVal
  offset : JSVal
  axisColor : Option String
  axisWidth : JSVal
  lineWidth : JSVal
  tickAlign : JSVal
  labelColor : Option String
  lineColor : Option String
  sublineColor : Option String
  tick : JSVal
  subtick : JSVal
  padding : List JSVal
  fontSize : JSVal
  fontFamily : String
  scale : Option JSVal
  values : ValuesVal
  subvalues : SubRes
  labels : LabRes

/-- Orientation-bound `getRange`: x returns `viewport.width * scale`,
y returns `viewport.height * scale` (it reads only the viewport and the
config's scale, which is why it is defined on `ConfigData`). -/
def getRangeFor (c : ConfigData) (vp : Viewport) : JSVal :=
  match c.orientation with
  | .x => jsMul vp.width c.scale
  | .y => jsMul vp.height c.scale

/-- Orientation-bound `getRatio` applied to a state's offset and range:
x returns `(value - offset) / range`, y returns `1 - (value - offset) / range`. -/
def getRatioFor (o : Orient) (v range offset : JSVal) : JSVal :=
  match o with
  | .x => jsDiv (jsSub v offset) range
  | .y => jsSub (fin 1) (jsDiv (jsSub v offset) range)

/-- The unclamped offset of calcLines:
`lines.offset - state.range * clamp(lines.origin, 0, 1)`. -/
def calcOffsetRaw (c : Config) (vp : Viewport) : JSVal :=
  jsSub c.offset (jsMul (getRangeFor c.toConfigData vp) (jsClamp c.origin (fin 0) (fin 1)))

/-- The clamped offset of calcLines:
`clamp(raw, Math.max(lines.min, -Number.MAX_VALUE+1), Math.min(lines.max, Number.MAX_VALUE) - state.range)`. -/
def calcOffsetClamped (c : Config) (vp : Viewport) : JSVal :=
  jsClamp (calcOffsetRaw c vp)
    (jsMax c.min (fin (-maxNumber + 1)))
    (jsSub (jsMin c.max (fin maxNumber)) (getRangeFor c.toConfigData vp))

/-- Style resolution for axisColor/lineColor/sublineColor:
`typeof v === 'number' ? alpha(lines.color, v) : v || lines.color`
(an empty string is falsy). -/
def resolveColor (ext : Externals) (base : Option String) : ColorOpt → Option String
  | .num a => some (ext.alphaFn base a)
  | .str s => if s = "" then base else some s
  | .unset => base

/-- JS `a || b` on numbers (used for `lines.axisWidth || lines.lineWidth`). -/
def jsOrVal (a b : JSVal) : JSVal := if truthy a then a else b

/-- Build the view of the in-progress state passed to a generator callback. -/
def mkView (c : Config) (vp : Viewport) (range offset : JSVal) (scale : Option JSVal)
    (values : Option ValuesVal) (subvalues : Option SubRes) : GenView :=
  { cfg := c.toConfigData, viewport := vp, range := range, offset := offset,
    scale := scale, values := values, subvalues := subvalues }

/-- Null-fill for the labels fallback branch: `Array(values.length).fill(null)`.
When `values` is the boolean `true`, `values.length` is undefined and
`Array(undefined)` is the one-element array `[undefined]`, so filling gives
`[null]`. -/
def nullFill : ValuesVal → List LabelVal
  | .arr l => List.replicate l.length .nullL
  | .btrue => [.nullL]

/-- The tick-value resolution (src/core.js lines 203-211): a generator is
invoked with the in-progress state; otherwise `values = lines.lines || []`
(the boolean `true` stays in place, `false` gives `[]`, a literal array
passes through). -/
def resolveValues (lines : Config) (vp : Viewport) (range offset : JSVal) : ValuesVal :=
  match lines.lines with
  | .fn g => .arr (g (mkView lines vp range offset none none none))
  | .bool b => if b then .btrue else .arr []
  | .vals l => .arr l

/-- The subline resolution (src/core.js lines 213-230).  A generator is
invoked directly.  When `sublines === true || sublines === undefined` and
`lines` is a generator, the generator is re-invoked (with `state.scale` set
to `undefined/3`, i.e. NaN) and the result filtered to
`values.indexOf(v) >= 0`.  Anything else passes through literally. -/
def resolveSubvalues (lines : Config) (vp : Viewport) (range offset : JSVal)
    (values : ValuesVal) : SubRes :=
  match lines.sublines with
  | .fn g => .arr (g (mkView lines vp range offset none (some values) none))
  | .bool b =>
      if b then
        match lines.lines with
        | .fn g =>
            let vl : List JSVal := match values with | .arr l => l | .btrue => []
            .arr ((g (mkView lines vp range offset (some JSVal.nan) (some values) none)).filter
              fun v => decide (0 ≤ jsIndexOf vl v))
        | _ => .jsTrue
      else .jsFalse
  | .undef =>
      match lines.lines with
      | .fn g =>
          let vl : List JSVal := match values with | .arr l => l | .btrue => []
          .arr ((g (mkView lines vp range offset (some JSVal.nan) (some values) none)).filter
            fun v => decide (0 ≤ jsIndexOf vl v))
      | _ => .undefV
  | .vals l => .arr l

/-- The label resolution (src/core.js lines 232-253), returning the final
`(state.values, state.labels)` pair.  `labels === true` reuses the values; a
generator's sequence result passes through; an explicit array passes
through; everything else (including a config-level plain-object mapping,
which is neither `true`, a Function nor an Array) null-fills.  A
generator-returned plain object hits the `isObj(labels)` branch, which
re-fills `state.labels` with nulls and pushes each mapped
`(parseFloat(key), label)` pair onto `state.values`/`state.labels`; when
`state.values` is the boolean `true` that `push` throws, modelled as `none`. -/
def resolveLabels (ext : Externals) (lines : Config) (vp : Viewport)
    (range offset : JSVal) (values : ValuesVal) (subvalues : SubRes) :
    Option (ValuesVal × LabRes) :=
  match lines.labels with
  | .bool b =>
      if b then
        some (values, match values with | .btrue => .btrue | .arr l => .arr (l.map LabelVal.num))
      else some (values, .arr (nullFill values))
  | .fn g =>
      match g (mkView lines vp range offset none (some values) (some subvalues)) with
      | .list l => some (values, .arr l)
      | .obj m =>
          match values with
          | .arr l =>
              some (.arr (l ++ m.map fun p => ext.parseFloat p.1),
                    .arr (List.replicate l.length LabelVal.nullL ++ m.map Prod.snd))
          | .btrue => none
  | .seq l => some (values, .arr l)
  | .mapping _ => some (values, .arr (nullFill values))
  | .undef => some (values, .arr (nullFill values))

/-- Shallow embedding of `Grid.prototype.calcLines` (src/core.js lines
157-256).  Returns `none` exactly where the source would throw (see
`resolveLabels`).  The final `state.scale` is always `none`: the source
saves the (undefined) `state.scale`, temporarily sets
`state.scale = scale/3` (`undefined/3` is NaN) around the subline
re-invocation of the generator, and restores it. -/
def calcLines (ext : Externals) (lines : Config) (vp : Viewport) : Option State :=
  let range := getRangeFor lines.toConfigData vp
  let offset := calcOffsetClamped lines vp
  let padding : List JSVal :=
    match lines.padding with
    | .num p => [p, p, p, p]
    | .fn g => g (mkView lines vp range offset none none none)
    | .arr l => l
  let fontSize : JSVal :=
    match lines.fontSize with
    | .num v => v
    | .str s =>
        let u := ext.parseUnit s
        jsMul u.1 (ext.toPx u.2)
  let values : ValuesVal := resolveValues lines vp range offset
  let subvalues : SubRes := resolveSubvalues lines vp range offset values
  (resolveLabels ext lines vp range offset values subvalues).map fun p =>
    { lines := lines
      viewport := vp
      range := range
      offset := offset
      axisColor := resolveColor ext lines.color lines.axisColor
      axisWidth := jsOrVal lines.axisWidth lines.lineWidth
      lineWidth := lines.lineWidth
      tickAlign := lines.tickAlign
      labelColor := none
      lineColor := resolveColor ext lines.color lines.lineColor
      sublineColor := resolveColor ext lines.color lines.sublineColor
      tick := lines.tick
      subtick := lines.subtick
      padding := padding
      fontSize := fontSize
      fontFamily := match lines.fontFamily with
        | some s => if s = "" then "sans-serif" else s
        | none => "sans-serif"
      scale := none
      values := p.1
      subvalues := subvalues
      labels := p.2 }

/-- Wheel-delta normalization at the top of the panzoom handler:
`zoom = clamp(-e.dz, -height*.75, height*.75)/height`. -/
def wheelZoom (vp : Viewport) (e : Ev) : JSVal :=
  jsDiv
    (jsClamp (jsNeg e.dz) (jsMul (jsNeg vp.height) (fin (3/4))) (jsMul vp.height (fin (3/4))))
    vp.height

/-- The x branch of the panzoom handler (src/core.js lines 81-93): returns
the `{offset, scale}` fragment passed to update.  Pan subtracts
`scale * e.dx`; zoom rescales by `(1 - zoom)`, clamps into
`[minScale, maxScale]` and corrects the offset by
`width * (newScale - prevScale) * tx` with `tx = (e.x-left)/width - originX`. -/
def panzoomAxisX (c : Config) (vp : Viewport) (e : Ev) : JSVal × JSVal :=
  if c.disabled then (c.offset, c.scale)
  else
    let oX := jsOrZero c.origin
    let off1 := if c.pan then jsSub c.offset (jsMul c.scale e.dx) else c.offset
    if c.zoom then
      let zoom := wheelZoom vp e
      let tx := jsSub (jsDiv (jsSub e.x vp.left) vp.width) oX
      let prevScale := c.scale
      let s2 := jsClamp (jsMul c.scale (jsSub (fin 1) zoom)) c.minScale c.maxScale
      (jsSub off1 (jsMul (jsMul vp.width (jsSub s2 prevScale)) tx), s2)
    else (off1, c.scale)

/-- The y branch of the panzoom handler (src/core.js lines 94-106).  Pan ADDS
`scale * e.dy` (`y.offset += y.scale * e.dy`); zoom uses the flipped focal
fraction `ty = originY - (e.y-top)/height`. -/
def panzoomAxisY (c : Config) (vp : Viewport) (e : Ev) : JSVal × JSVal :=
  if c.disabled then (c.offset, c.scale)
  else
    let oY := jsOrZero c.origin
    let off1 := if c.pan then jsAdd c.offset (jsMul c.scale e.dy) else c.offset
    if c.zoom then
      let zoom := wheelZoom vp e
      let ty := jsSub oY (jsDiv (jsSub e.y vp.top) vp.height)
      let prevScale := c.scale
      let s2 := jsClamp (jsMul c.scale (jsSub (fin 1) zoom)) c.minScale c.maxScale
      (jsSub off1 (jsMul (jsMul vp.height (jsSub s2 prevScale)) ty), s2)
    else (off1, c.scale)

/-- A per-axis options fragment: every recognized key optionally present
(just-extend copies own properties, so `none` means "key absent"). -/
structure ConfigOpts where
  type : Option String := none
  disabled : Option Bool := none
  min : Option JSVal := none
  max : Option JSVal := none
  offset : Option JSVal := none
  origin : Option JSVal := none
  scale : Option JSVal := none
  minScale : Option JSVal := none
  maxScale : Option JSVal := none
  pan : Option Bool := none
  zoom : Option Bool := none
  tick : Option JSVal := none
  subtick : Option JSVal := none
  tickAlign : Option JSVal := none
  lineWidth : Option JSVal := none
  axisWidth : Option JSVal := none
  color : Option String := none
  lineColor : Option ColorOpt := none
  sublineColor : Option ColorOpt := none
  axisColor : Option ColorOpt := none
  fontSize : Option FontOpt := none
  fontFamily : Option String := none
  lines : Option LinesOpt := none
  sublines : Option SublinesOpt := none
  labels : Option LabelsOpt := none
  padding : Option PaddingOpt := none

/-- just-extend of a fragment into a persistent config: fields present in
the fragment overwrite the config's. -/
def extendConfig (c : Config) (o : ConfigOpts) : Config :=
  { c with
    type := match o.type with | some t => some t | none => c.type
    disabled := o.disabled.getD c.disabled
    min := o.min.getD c.min
    max := o.max.getD c.max
    offset := o.offset.getD c.offset
    origin := o.origin.getD c.origin
    scale := o.scale.getD c.scale
    minScale := o.minScale.getD c.minScale
    maxScale := o.maxScale.getD c.maxScale
    pan := o.pan.getD c.pan
    zoom := o.zoom.getD c.zoom
    tick := o.tick.getD c.tick
    subtick := o.subtick.getD c.subtick
    tickAlign := o.tickAlign.getD c.tickAlign
    lineWidth := o.lineWidth.getD c.lineWidth
    axisWidth := o.axisWidth.getD c.axisWidth
    color := match o.color with | some s => some s | none => c.color
    lineColor := o.lineColor.getD c.lineColor
    sublineColor := o.sublineColor.getD c.sublineColor
    axisColor := o.axisColor.getD c.axisColor
    fontSize := o.fontSize.getD c.fontSize
    fontFamily := match o.fontFamily with | some s => some s | none => c.fontFamily
    lines := o.lines.getD c.lines
    sublines := o.sublines.getD c.sublines
    labels := o.labels.getD c.labels
    padding := o.padding.getD c.padding }

/-- Pick the first present value (key present in `s` wins over `t`). -/
def orOpt (s t : Option α) : Option α :=
  match s with
  | some v => some v
  | none => t

/-- just-extend of one fragment into another, `extend(target, source)`:
keys present in `source` overwrite those of `target`. -/
def extendOpts (target source : ConfigOpts) : ConfigOpts :=
  { type := orOpt source.type target.type
    disabled := orOpt source.disabled target.disabled
    min := orOpt source.min target.min
    max := orOpt source.max target.max
    offset := orOpt source.offset target.offset
    origin := orOpt source.origin target.origin
    scale := orOpt source.scale target.scale
    minScale := orOpt source.minScale target.minScale
    maxScale := orOpt source.maxScale target.maxScale
    pan := orOpt source.pan target.pan
    zoom := orOpt source.zoom target.zoom
    tick := orOpt source.tick target.tick
    subtick := orOpt source.subtick target.subtick
    tickAlign := orOpt source.tickAlign target.tickAlign
    lineWidth := orOpt source.lineWidth target.lineWidth
    axisWidth := orOpt source.axisWidth target.axisWidth
    color := orOpt source.color target.color
    lineColor := orOpt source.lineColor target.lineColor
    sublineColor := orOpt source.sublineColor target.sublineColor
    axisColor := orOpt source.axisColor target.axisColor
    fontSize := orOpt source.fontSize target.fontSize
    fontFamily := orOpt source.fontFamily target.fontFamily
    lines := orOpt source.lines target.lines
    sublines := orOpt source.sublines target.sublines
    labels := orOpt source.labels target.labels
    padding := orOpt source.padding target.padding }

/-- The type-preset expansion at the top of update (src/core.js lines
118-121): `if (opts.x && opts.x.type) extend(opts.x, Grid.types[opts.x.type])`.
The TypePresets table (`./types`, not part of src/) is a parameter.  Note the
direction: the PRESET is the just-extend source, so its fields overwrite the
fragment's explicitly-given sibling fields. -/
def expandType (table : String → Option ConfigOpts) (o : ConfigOpts) : ConfigOpts :=
  match o.type with
  | some t =>
      if t = "" then o
      else match table t with
        | some preset => extendOpts o preset
        | none => o
  | none => o

/-- A per-axis constructor/update option: `false`/`true` or a fragment. -/
inductive AxisOpt where
  | boolOpt (b : Bool) : AxisOpt
  | objOpt (o : ConfigOpts) : AxisOpt

/-- JS truthiness of an axis option (objects are truthy). -/
def axisTruthy : AxisOpt → Bool
  | .boolOpt b => b
  | .objOpt _ => true

/-- Constructor/update options `{x?, y?, r?, a?}`. -/
structure GridOpts where
  x : Option AxisOpt := none
  y : Option AxisOpt := none
  r : Option AxisOpt := none
  a : Option AxisOpt := none

/-- The four persistent axis configurations owned by a Grid. -/
structure Grid where
  x : Config
  y : Config
  r : Config
  a : Config

/-- One axis of update's merge step: a fragment is preset-expanded and then
just-extended into the persistent config (`if (opts.x) extend(this.x, opts.x)`);
a boolean option merges nothing (just-extend ignores non-object sources). -/
def updateMergeAxis (table : String → Option ConfigOpts) (c : Config)
    (o : Option AxisOpt) : Config :=
  match o with
  | some (.objOpt frag) => extendConfig c (expandType table frag)
  | _ => c

/-- The merge step of `Grid.prototype.update` (src/core.js lines 116-128). -/
def updateMergeGrid (table : String → Option ConfigOpts) (g : Grid)
    (opts : Option GridOpts) : Grid :=
  match opts with
  | none => g
  | some o =>
      { x := updateMergeAxis table g.x o.x
        y := updateMergeAxis table g.y o.y
        r := updateMergeAxis table g.r o.r
        a := updateMergeAxis table g.a o.a }

/-- The offset normalization of update (src/core.js lines 130-139), applied
to an enabled axis:
`offset = clamp(offset, min, Math.max(max - range, min))`. -/
def normAxis (c : Config) (vp : Viewport) : Config :=
  if c.disabled then c
  else
    let range := getRangeFor c.toConfigData vp
    { c with offset := jsClamp c.offset c.min (jsMax (jsSub c.max range) c.min) }

/-- The configuration side of `Grid.prototype.update`: merge fragments,
then normalize the x and y offsets (r and a are not normalized). -/
def updateConfigs (table : String → Option ConfigOpts) (g : Grid)
    (opts : Option GridOpts) (vp : Viewport) : Grid :=
  let g1 := updateMergeGrid table g opts
  { g1 with x := normAxis g1.x vp, y := normAxis g1.y vp }

/-- The state side of `Grid.prototype.update` (src/core.js lines 141-146):
calcLines runs unconditionally for the x and y configs, disabled or not. -/
def updateStates (ext : Externals) (g : Grid) (vp : Viewport) : Option (State × State) :=
  match calcLines ext g.x vp, calcLines ext g.y vp with
  | some sx, some sy => some (sx, sy)
  | _, _ => none

/-- The xy default of the constructor (src/core.js lines 44-47): when all
four axis keys are omitted, x and y are set to `true`. -/
def defaultXY (opts : GridOpts) : GridOpts :=
  if opts.r.isNone && opts.a.isNone && opts.y.isNone && opts.x.isNone then
    { opts with x := some (.boolOpt true), y := some (.boolOpt true) }
  else opts

/-- One axis of the constructor (src/core.js lines 50-59):
`this.x = extend({disabled: true}, Grid.prototype.x, opts.x)` — the prototype
object carries no own `disabled` key, so the literal's `disabled: true`
survives that merge — followed by
`if (opts.x !== undefined) this.x.disabled = !opts.x`. -/
def initAxis (proto : Config) (o : Option AxisOpt) : Config :=
  let base : Config := { proto with disabled := true }
  let merged := match o with
    | some (.objOpt frag) => extendConfig base frag
    | _ => base
  match o with
  | some v => { merged with disabled := !(axisTruthy v) }
  | none => merged

/-- The configuration side of the Grid constructor (src/core.js lines
34-65): apply the xy default, initialize the four axes, then run update with
the same options. -/
def mkGrid (table : String → Option ConfigOpts) (protos : Grid)
    (opts : GridOpts) (vp : Viewport) : Grid :=
  let o := defaultXY opts
  let g0 : Grid :=
    { x := initAxis protos.x o.x
      y := initAxis protos.y o.y
      r := initAxis protos.r o.r
      a := initAxis protos.a o.a }
  updateConfigs table g0 (some o) vp

/-- The values list of a computed state (the boolean-`true` case and the
thrown case give `[]`). -/
def valuesListOf : Option State → List JSVal
  | some st => match st.values with | .arr l => l | .btrue => []
  | none => []

/-- The subvalues list of a computed state (non-list cases give `[]`). -/
def subvaluesListOf : Option State → List JSVal
  | some st => match st.subvalues with | .arr l => l | _ => []
  | none => []

/-- The labels list of a computed state (non-list cases give `[]`). -/
def labelsListOf : Option State → List LabelVal
  | some st => match st.labels with | .arr l => l | .btrue => []
  | none => []

/-- The resolved offset of a computed state (NaN for the thrown case). -/
def stateOffsetOf : Option State → JSVal
  | some st => st.offset
  | none => JSVal.nan

/-- The resolved range of a computed state (NaN for the thrown case). -/
def stateRangeOf : Option State → JSVal
  | some st => st.range
  | none => JSVal.nan

/-- getRatio of a value against a computed state. -/
def ratioOf (o : Orient) (v : JSVal) (os : Option State) : JSVal :=
  match os with
  | some st => getRatioFor o v st.range st.offset
  | none => JSVal.nan

/-- Concrete externals used for witnesses and counterexamples. -/
def ext0 : Externals :=
  { alphaFn := fun _ _ => ""
    parseUnit := fun _ => (fin 0, "")
    toPx := fun _ => fin 0
    parseFloat := fun _ => fin 0 }

/-- Concrete viewport `[0, 0, 100, 100]` used for witnesses. -/
def vp0 : Viewport := { left := fin 0, top := fin 0, width := fin 100, height := fin 100 }

/-- A concrete base axis configuration used for witnesses and
counterexamples (explicit bounds, so no verdict depends on the contents of
the unavailable `types.js` presets). -/
def cfgBase : Config :=
  { disabled := false
    type := none
    orientation := .x
    min := fin (-1000)
    max := fin 1000
    offset := fin 0
    origin := fin (1/2)
    scale := fin 1
    minScale := fin (1/4)
    maxScale := fin 2
    pan := true
    zoom := true
    tick := fin 8
    subtick := fin 0
    tickAlign := fin (1/2)
    lineWidth := fin 1
    axisWidth := fin 2
    color := some "rgb(0,0,0,1)"
    lineColor := ColorOpt.num (fin (2/5))
    sublineColor := ColorOpt.num (fin (1/10))
    axisColor := ColorOpt.num (fin 1)
    fontSize := FontOpt.num (fin 10)
    fontFamily := some "sans-serif"
    lines := LinesOpt.vals []
    sublines := SublinesOpt.bool false
    labels := LabelsOpt.bool false
    padding := PaddingOpt.num (fin 0) }

/-- An empty options fragment. -/
def emptyOpts : ConfigOpts := {}

/-- The `{offset, scale}` fragment the panzoom handler passes to update. -/
def panFrag (p : JSVal × JSVal) : ConfigOpts := { offset := some p.1, scale := some p.2 }

/-- The per-orientation handler branch. -/
def panzoomAxis : Orient → Config → Viewport → Ev → JSVal × JSVal
  | .x => panzoomAxisX
  | .y => panzoomAxisY

/-- Pointer position as a fraction of the axis extent
(`(e.x-left)/width` for x, `(e.y-top)/height` for y). -/
def pointerFrac (o : Orient) (vp : Viewport) (e : Ev) : JSVal :=
  match o with
  | .x => jsDiv (jsSub e.x vp.left) vp.width
  | .y => jsDiv (jsSub e.y vp.top) vp.height

/-- The data value whose getRatio against a given range/offset is `q`
(`offset + q*range` for x, `offset + (1-q)*range` for y). -/
def valueAtFrac (o : Orient) (q range offset : JSVal) : JSVal :=
  match o with
  | .x => jsAdd offset (jsMul q range)
  | .y => jsAdd offset (jsMul (jsSub (fin 1) q) range)

namespace JSVal

@[simp] theorem jsNeg_fin (a : ℚ) : jsNeg (fin a) = fin (-a) := rfl

@[simp] theorem jsAdd_fin (a b : ℚ) : jsAdd (fin a) (fin b) = fin (a + b) := rfl

@[simp] theorem jsSub_fin (a b : ℚ) : jsSub (fin a) (fin b) = fin (a - b) := by
  simp [jsSub, jsAdd, jsNeg, sub_eq_add_neg]

@[simp] theorem jsMul_fin (a b : ℚ) : jsMul (fin a) (fin b) = fin (a * b) := rfl

theorem jsDiv_fin (a b : ℚ) (h : b ≠ 0) : jsDiv (fin a) (fin b) = fin (a / b) := by
  simp [jsDiv, h]

@[simp] theorem jsOrZero_fin (a : ℚ) : jsOrZero (fin a) = fin a := by
  by_cases h : a = 0
  · subst h; simp [jsOrZero, truthy]
  · simp [jsOrZero, truthy, h]

@[simp] theorem jsMin_fin (a b : ℚ) : jsMin (fin a) (fin b) = fin (min a b) := by
  by_cases h : a < b
  · simp [jsMin, jsLtb, h, min_eq_left h.le]
  · simp [jsMin, jsLtb, h, min_eq_right (le_of_not_lt h)]

@[simp] theorem jsMax_fin (a b : ℚ) : jsMax (fin a) (fin b) = fin (max a b) := by
  by_cases h : a < b
  · simp [jsMax, jsLtb, h, max_eq_right h.le]
  · simp [jsMax, jsLtb, h, max_eq_left (le_of_not_lt h)]

end JSVal

/-- The mumath clamp restricted to finite values. -/
def clampQ (a mn mx : ℚ) : ℚ :=
  if mn < mx then max (min a mx) mn else max (min a mn) mx

@[simp] theorem jsClamp_fin (a mn mx : ℚ) :
    jsClamp (fin a) (fin mn) (fin mx) = fin (clampQ a mn mx) := by
  by_cases h : mn < mx
  · simp [jsClamp, jsLtb, clampQ, h, JSVal.jsMin_fin, JSVal.jsMax_fin]
  · simp [jsClamp, jsLtb, clampQ, h, JSVal.jsMin_fin, JSVal.jsMax_fin]

theorem clampQ_id (a mn mx : ℚ) (h1 : mn ≤ a) (h2 : a ≤ mx) : clampQ a mn mx = a := by
  unfold clampQ
  split_ifs with h
  · rw [min_eq_left h2, max_eq_left h1]
  · have heq : mn = mx := le_antisymm (le_trans h1 h2) (le_of_not_lt h)
    have ha : a = mn := le_antisymm (heq ▸ h2) h1
    rw [ha, min_self]
    exact max_eq_left heq.ge

theorem clampQ_mem (a mn mx : ℚ) (h : mn ≤ mx) :
    mn ≤ clampQ a mn mx ∧ clampQ a mn mx ≤ mx := by
  unfold clampQ
  split_ifs with hlt
  · exact ⟨le_max_right _ _, max_le (le_trans (min_le_right _ _) le_rfl) h⟩
  · have heq : mn = mx := le_antisymm h (le_of_not_lt hlt)
    subst heq
    exact ⟨le_max_right _ _, max_le (min_le_right _ _) le_rfl⟩

theorem jsStrictEq_eq {a b : JSVal} (h : jsStrictEq a b = true) : a = b := by
  cases a <;> cases b <;> simp [jsStrictEq] at h <;> simp [h]

theorem jsIndexOf_nonneg_mem (l : List JSVal) (v : JSVal) (h : 0 ≤ jsIndexOf l v) :
    v ∈ l := by
  induction l with
  | nil => simp [jsIndexOf] at h
  | cons a rest ih =>
      by_cases he : jsStrictEq a v = true
      · exact (jsStrictEq_eq he) ▸ List.mem_cons_self a rest
      · simp only [jsIndexOf, he, if_false] at h
        by_cases hr : jsIndexOf rest v < 0
        · simp [hr] at h
        · exact List.mem_cons_of_mem a (ih (le_of_not_lt hr))

/-- Merging the handler's `{offset, scale}` fragment into a config replaces
exactly those two fields. -/
theorem extendConfig_panFrag (c : Config) (p : JSVal × JSVal) :
    extendConfig c (panFrag p) = { c with offset := p.1, scale := p.2 } := rfl

/-- Projections of a successfully computed state: the offset and range come
from the clamp/getRange resolution, values/subvalues/labels from the three
resolution steps, and `labelColor` is the never-assigned `state.color`. -/
theorem calcLines_spec (ext : Externals) (c : Config) (vp : Viewport) (st : State)
    (h : calcLines ext c vp = some st) :
    ∃ p, resolveLabels ext c vp (getRangeFor c.toConfigData vp) (calcOffsetClamped c vp)
        (resolveValues c vp (getRangeFor c.toConfigData vp) (calcOffsetClamped c vp))
        (resolveSubvalues c vp (getRangeFor c.toConfigData vp) (calcOffsetClamped c vp)
          (resolveValues c vp (getRangeFor c.toConfigData vp) (calcOffsetClamped c vp))) = some p ∧
      st.offset = calcOffsetClamped c vp ∧
      st.range = getRangeFor c.toConfigData vp ∧
      st.values = p.1 ∧
      st.labels = p.2 ∧
      st.subvalues = resolveSubvalues c vp (getRangeFor c.toConfigData vp) (calcOffsetClamped c vp)
        (resolveValues c vp (getRangeFor c.toConfigData vp) (calcOffsetClamped c vp)) ∧
      st.labelColor = none := by
  simp only [calcLines] at h
  rw [Option.map_eq_some'] at h
  obtain ⟨p, hp, he⟩ := h
  subst he
  exact ⟨p, hp, rfl, rfl, rfl, rfl, rfl, rfl⟩

/-- The scale of a config is untouched by the offset normalization. -/
theorem normAxis_scale (c : Config) (vp : Viewport) : (normAxis c vp).scale = c.scale := by
  unfold normAxis
  split <;> rfl

/-- The disabled flag of a config is untouched by the offset normalization. -/
theorem normAxis_disabled (c : Config) (vp : Viewport) :
    (normAxis c vp).disabled = c.disabled := by
  unfold normAxis
  split <;> rfl

/-- An empty TypePresets table. -/
def table0 : String → Option ConfigOpts := fun _ => none

/-- A wheel event: dz = -50 at pointer (25, 25). -/
def e1 : Ev := { dx := fin 0, dy := fin 0, dz := fin (-50), x := fin 25, y := fin 25 }

/-- Claim C10, confirmed: for every externals, axis config and viewport, the
state computed by calcLines has `labelColor = none` (undefined): it is
assigned from `state.color`, a field never set anywhere during state
construction, so the configured color/lineColor/axisColor values never
influence it. -/
theorem claim10_labelColor_undefined (ext : Externals) (c : Config) (vp : Viewport)
    (st : State) (h : calcLines ext c vp = some st) : st.labelColor = none := by
  obtain ⟨p, _, _, _, _, _, _, hlc⟩ := calcLines_spec ext c vp st h
  exact hlc

/-- Witness for C10 at a concrete config. -/
theorem claim10_witness :
    ∃ st, calcLines ext0 cfgBase vp0 = some st ∧ st.labelColor = none :=
  ⟨_, rfl, claim10_labelColor_undefined ext0 cfgBase vp0 _ rfl⟩

/-- A disabled axis config with literal lines, sublines and labels. -/
def cfg4 : Config :=
  { cfgBase with
    disabled := true
    lines := LinesOpt.vals [fin 1]
    sublines := SublinesOpt.vals []
    labels := LabelsOpt.seq [] }

/-- Counterexample to claim C4 as stated: a disabled axis with configured
`lines: [1]` gets a NON-empty `state.values` — calcLines is run
unconditionally by update and never consults `disabled`. -/
theorem claim4_counterexample :
    cfg4.disabled = true ∧ valuesListOf (calcLines ext0 cfg4 vp0) ≠ [] := by
  exact ⟨rfl, by decide⟩

/-- Claim C4, amended: `disabled: true` does NOT empty the computed state;
calcLines resolves values/subvalues/labels by the same rules as for an
enabled axis (shown here for literal configs: the configured lists pass
through verbatim). -/
theorem claim4_amended (ext : Externals) (c : Config) (vp : Viewport)
    (lv sv : List JSVal) (lb : List LabelVal)
    (hd : c.disabled = true) (hl : c.lines = LinesOpt.vals lv)
    (hs : c.sublines = SublinesOpt.vals sv) (hb : c.labels = LabelsOpt.seq lb) :
    ∃ st, calcLines ext c vp = some st ∧ st.values = ValuesVal.arr lv ∧
      st.subvalues = SubRes.arr sv ∧ st.labels = LabRes.arr lb := by
  have hv : resolveValues c vp (getRangeFor c.toConfigData vp) (calcOffsetClamped c vp)
      = ValuesVal.arr lv := by simp [resolveValues, hl]
  have hsub : resolveSubvalues c vp (getRangeFor c.toConfigData vp) (calcOffsetClamped c vp)
      (ValuesVal.arr lv) = SubRes.arr sv := by simp [resolveSubvalues, hs]
  have hlab : resolveLabels ext c vp (getRangeFor c.toConfigData vp) (calcOffsetClamped c vp)
      (ValuesVal.arr lv) (SubRes.arr sv) = some (ValuesVal.arr lv, LabRes.arr lb) := by
    simp [resolveLabels, hb]
  have hsome : ∃ st, calcLines ext c vp = some st := by
    simp only [calcLines, hv, hsub, hlab, Option.map_some']
    exact ⟨_, rfl⟩
  obtain ⟨st, hst⟩ := hsome
  obtain ⟨p, hp, _, _, hvals, hlabs, hsubs, _⟩ := calcLines_spec ext c vp st hst
  rw [hv] at hp hsubs
  rw [hsub] at hp hsubs
  rw [hlab] at hp
  obtain rfl : (ValuesVal.arr lv, LabRes.arr lb) = p := Option.some.inj hp
  exact ⟨st, hst, hvals, hsubs, hlabs⟩

/-- Witness for the amended C4 at the concrete disabled config. -/
theorem claim4_amended_witness :
    ∃ st, calcLines ext0 cfg4 vp0 = some st ∧ st.values = ValuesVal.arr [fin 1] ∧
      st.subvalues = SubRes.arr [] ∧ st.labels = LabRes.arr [] :=
  claim4_amended ext0 cfg4 vp0 [fin 1] [] [] rfl rfl rfl rfl

/-- A y-oriented config with zoom disabled (pan only). -/
def cfg5 : Config := { cfgBase with orientation := Orient.y, zoom := false }

/-- A drag event with dy = 1. -/
def e5 : Ev := { dx := fin 0, dy := fin 1, dz := fin 0, x := fin 0, y := fin 0 }

/-- Counterexample to claim C5 as stated: the y pan branch does NOT compute
`offset - scale*dy` (at offset 0, scale 1, dy 1 the handler yields +1, the
claimed mirror of the x rule would yield -1). -/
theorem claim5_counterexample :
    ¬ ((panzoomAxisY cfg5 vp0 e5).1 = jsSub cfg5.offset (jsMul cfg5.scale e5.dy)) := by
  norm_num [panzoomAxisY, cfg5, cfgBase, e5, vp0]

/-- Claim C5, amended: for an enabled y axis with pan truthy (zoom disabled
to isolate the pan step), the handler ADDS `scale * dy` to the offset
(`y.offset += y.scale * e.dy`), the sign being flipped relative to the x
rule just as the y getRatio is flipped. -/
theorem claim5_amended (c : Config) (vp : Viewport) (e : Ev)
    (hd : c.disabled = false) (hp : c.pan = true) (hz : c.zoom = false) :
    (panzoomAxisY c vp e).1 = jsAdd c.offset (jsMul c.scale e.dy) := by
  simp [panzoomAxisY, hd, hp, hz]

/-- Witness for the amended C5. -/
theorem claim5_witness :
    (panzoomAxisY cfg5 vp0 e5).1 = jsAdd cfg5.offset (jsMul cfg5.scale e5.dy) :=
  claim5_amended cfg5 vp0 e5 rfl rfl rfl

/-- Concrete prototype configs standing for `Grid.prototype.{x,y,r,a}`
(quantified over in the general theorems; only needed concretely for
witnesses). -/
def protos0 : Grid :=
  { x := cfgBase
    y := { cfgBase with orientation := Orient.y }
    r := cfgBase
    a := cfgBase }

/-- Counterexample to claim C6 as stated: with ALL four axis keys omitted,
the constructor defaults x and y to `true`, so the omitted x key ends up
ENABLED (disabled = false), not disabled. -/
theorem claim6_counterexample :
    (({} : GridOpts).x = none) ∧ (mkGrid table0 protos0 {} vp0).x.disabled = false := by
  exact ⟨rfl, by decide⟩

/-- Claim C6, amended: an omitted axis key yields `disabled = true` whenever
at least one of the four axis keys is present; in the all-omitted case the
constructor defaults x and y to enabled (`opts.x = opts.y = true`) while r
and a stay disabled. -/
theorem claim6_amended (table : String → Option ConfigOpts) (protos : Grid)
    (opts : GridOpts) (vp : Viewport) :
    ((opts.r.isNone && opts.a.isNone && opts.y.isNone && opts.x.isNone) = false →
      ((opts.x = none → (mkGrid table protos opts vp).x.disabled = true) ∧
       (opts.y = none → (mkGrid table protos opts vp).y.disabled = true) ∧
       (opts.r = none → (mkGrid table protos opts vp).r.disabled = true) ∧
       (opts.a = none → (mkGrid table protos opts vp).a.disabled = true))) ∧
    ((opts.r.isNone && opts.a.isNone && opts.y.isNone && opts.x.isNone) = true →
      ((mkGrid table protos opts vp).x.disabled = false ∧
       (mkGrid table protos opts vp).y.disabled = false ∧
       (mkGrid table protos opts vp).r.disabled = true ∧
       (mkGrid table protos opts vp).a.disabled = true)) := by
  constructor
  · intro hcond
    have hdef : defaultXY opts = opts := by simp [defaultXY, hcond]
    refine ⟨fun hx => ?_, fun hy => ?_, fun hr => ?_, fun ha => ?_⟩
    · simp [mkGrid, hdef, updateConfigs, updateMergeGrid, updateMergeAxis, initAxis, hx,
        normAxis_disabled]
    · simp [mkGrid, hdef, updateConfigs, updateMergeGrid, updateMergeAxis, initAxis, hy,
        normAxis_disabled]
    · simp [mkGrid, hdef, updateConfigs, updateMergeGrid, updateMergeAxis, initAxis, hr]
    · simp [mkGrid, hdef, updateConfigs, updateMergeGrid, updateMergeAxis, initAxis, ha]
  · intro hcond
    simp only [Bool.and_eq_true, Option.isNone_iff_eq_none] at hcond
    obtain ⟨⟨⟨hr, ha⟩, hy⟩, hx⟩ := hcond
    have hdef : defaultXY opts =
        { opts with x := some (AxisOpt.boolOpt true), y := some (AxisOpt.boolOpt true) } := by
      simp [defaultXY, hr, ha, hy, hx]
    refine ⟨?_, ?_, ?_, ?_⟩ <;>
      simp [mkGrid, hdef, updateConfigs, updateMergeGrid, updateMergeAxis, initAxis, hr, ha,
        normAxis_disabled, axisTruthy]

/-- Options with only the r axis present. -/
def optsR : GridOpts := { r := some (AxisOpt.boolOpt true) }

/-- Witness for the amended C6: with r present, the omitted x key disables
the x axis. -/
theorem claim6_witness : (mkGrid table0 protos0 optsR vp0).x.disabled = true :=
  ((claim6_amended table0 protos0 optsR vp0).1 rfl).1 rfl

/-- The `linear` preset used in the C2 counterexample (the real types.js is
not part of src/; the table is quantified over in the amended theorem and
only needs to be a concrete nonempty fragment here). -/
def presetLin : ConfigOpts := { scale := some (fin 5) }

/-- A TypePresets table holding only `linear`. -/
def tableLin : String → Option ConfigOpts := fun t =>
  if t = "linear" then some presetLin else none

/-- A fragment carrying both a `type` key and an explicit sibling `scale`. -/
def frag2 : ConfigOpts := { type := some "linear", scale := some (fin 2) }

/-- Update options carrying `frag2` for the x axis. -/
def opts2 : GridOpts := { x := some (AxisOpt.objOpt frag2) }

/-- A grid of base configs. -/
def g2 : Grid := { x := cfgBase, y := cfgBase, r := cfgBase, a := cfgBase }

/-- Counterexample to claim C2 as stated: the fragment explicitly sets
`scale: 2` alongside `type: "linear"`, the linear preset sets `scale: 5`;
after update the stored scale is the PRESET's 5, not the fragment's 2 —
`extend(opts.x, Grid.types[opts.x.type])` makes the preset the just-extend
source, overwriting the fragment's explicit sibling values. -/
theorem claim2_counterexample :
    frag2.scale = some (fin 2) ∧ presetLin.scale = some (fin 5) ∧
    (updateConfigs tableLin g2 (some opts2) vp0).x.scale = fin 5 ∧
    (updateConfigs tableLin g2 (some opts2) vp0).x.scale ≠ fin 2 := by
  refine ⟨rfl, rfl, by decide, by decide⟩

/-- Claim C2, amended: in update, a fragment carrying `type` is expanded by
`extend(fragment, preset)`, so for every key the stored value is the
PRESET's when the preset sets it, the fragment's otherwise (shown for the
representative `scale` field; `extendOpts`/`extendConfig` treat all fields
alike). -/
theorem claim2_amended (table : String → Option ConfigOpts) (g : Grid) (o : GridOpts)
    (vp : Viewport) (frag preset : ConfigOpts) (t : String)
    (hx : o.x = some (AxisOpt.objOpt frag)) (ht : frag.type = some t) (hne : t ≠ "")
    (htab : table t = some preset) :
    (updateConfigs table g (some o) vp).x.scale
      = (orOpt preset.scale frag.scale).getD g.x.scale := by
  have h1 : (updateConfigs table g (some o) vp).x
      = normAxis (updateMergeAxis table g.x o.x) vp := rfl
  rw [h1, normAxis_scale, hx]
  simp [updateMergeAxis, expandType, ht, hne, htab, extendConfig, extendOpts]

/-- Witness for the amended C2 at the concrete table/fragment. -/
theorem claim2_witness :
    (updateConfigs tableLin g2 (some opts2) vp0).x.scale
      = (orOpt presetLin.scale frag2.scale).getD g2.x.scale :=
  claim2_amended tableLin g2 opts2 vp0 frag2 presetLin "linear" rfl rfl (by decide) rfl

/-- An x config with the default unbounded limits (min = -Infinity,
max = +Infinity). -/
def cfg3 : Config := { cfgBase with min := JSVal.neginf, max := JSVal.inf }

/-- A grid whose x axis is the unbounded config. -/
def g3 : Grid := { x := cfg3, y := cfgBase, r := cfgBase, a := cfgBase }

/-- An update fragment carrying a non-finite scale (in IEEE doubles the same
non-finite range also arises from overflow, e.g. scale = Number.MAX_VALUE
with width 200). -/
def opts3 : GridOpts := { x := some (AxisOpt.objOpt { scale := some JSVal.inf }) }

/-- Claim C3 evaluation at the failing input: with default min/max and a
non-finite range, update's offset normalization computes
`Math.max(Infinity - Infinity, min) = NaN` and stores `offset = NaN`; the
subsequent calcLines offset is NaN as well.  The offset-clamp step is NOT
skipped for non-finite ranges, contradicting the claim (and the spec's §7
requirement). -/
theorem claim3_nan_offset :
    (updateConfigs table0 g3 (some opts3) vp0).x.offset = JSVal.nan ∧
    stateOffsetOf (calcLines ext0 (updateConfigs table0 g3 (some opts3) vp0).x vp0)
      = JSVal.nan := by
  refine ⟨by decide, ?_⟩
  norm_num [updateConfigs, updateMergeGrid, updateMergeAxis, expandType,
    extendConfig, normAxis, getRangeFor, calcOffsetRaw, calcOffsetClamped, jsClamp,
    jsMax, jsMin, jsLtb, jsMul, jsAdd, jsSub, jsNeg, cfg3, cfgBase, g3, opts3, vp0,
    table0, stateOffsetOf, calcLines, resolveValues, resolveSubvalues, resolveLabels,
    nullFill, maxNumber]

/-- The label resolution can only APPEND to a list-valued `state.values`
(the `isObj` branch pushes parsed hashmap keys; every other branch leaves
values untouched). -/
theorem resolveLabels_values_append (ext : Externals) (c : Config) (vp : Viewport)
    (r o : JSVal) (l : List JSVal) (sv : SubRes) (p : ValuesVal × LabRes)
    (h : resolveLabels ext c vp r o (ValuesVal.arr l) sv = some p) :
    ∃ l2, p.1 = ValuesVal.arr (l ++ l2) := by
  cases hcl : c.labels with
  | bool b =>
      simp only [resolveLabels, hcl] at h
      by_cases hb : b
      · simp only [hb, if_true] at h
        exact ⟨[], by rw [← Option.some.inj h]; simp⟩
      · simp only [hb, if_false] at h
        exact ⟨[], by rw [← Option.some.inj h]; simp⟩
  | undef =>
      simp only [resolveLabels, hcl] at h
      exact ⟨[], by rw [← Option.some.inj h]; simp⟩
  | seq ls =>
      simp only [resolveLabels, hcl] at h
      exact ⟨[], by rw [← Option.some.inj h]; simp⟩
  | mapping m =>
      simp only [resolveLabels, hcl] at h
      exact ⟨[], by rw [← Option.some.inj h]; simp⟩
  | fn gf =>
      simp only [resolveLabels, hcl] at h
      cases hr : gf (mkView c vp r o none (some (ValuesVal.arr l)) (some sv)) with
      | list ll =>
          rw [hr] at h
          exact ⟨[], by rw [← Option.some.inj h]; simp⟩
      | obj m =>
          rw [hr] at h
          exact ⟨m.map fun q => ext.parseFloat q.1, by rw [← Option.some.inj h]⟩

/-- Claim C7, confirmed: when `sublines` is true or unset and `lines` is a
generator, every element of the auto-derived `state.subvalues` is also an
element of `state.values` — the re-invocation result is filtered by
`values.indexOf(v) >= 0`, and the label step can only append to values. -/
theorem claim7_subline_refinement (ext : Externals) (c : Config) (vp : Viewport)
    (st : State) (g : GenView → List JSVal)
    (h : calcLines ext c vp = some st)
    (hauto : c.sublines = SublinesOpt.bool true ∨ c.sublines = SublinesOpt.undef)
    (hg : c.lines = LinesOpt.fn g) :
    ∀ v ∈ subvaluesListOf (calcLines ext c vp), v ∈ valuesListOf (calcLines ext c vp) := by
  intro v hv
  obtain ⟨p, hp, _, _, hvals, _, hsubs, _⟩ := calcLines_spec ext c vp st h
  rw [h] at hv ⊢
  have hV : resolveValues c vp (getRangeFor c.toConfigData vp) (calcOffsetClamped c vp)
      = ValuesVal.arr (g (mkView c vp (getRangeFor c.toConfigData vp)
          (calcOffsetClamped c vp) none none none)) := by
    simp [resolveValues, hg]
  set R := getRangeFor c.toConfigData vp
  set O := calcOffsetClamped c vp
  set vl := g (mkView c vp R O none none none) with hvl
  have hS : resolveSubvalues c vp R O (resolveValues c vp R O)
      = SubRes.arr ((g (mkView c vp R O (some JSVal.nan) (some (ValuesVal.arr vl)) none)).filter
          fun w => decide (0 ≤ jsIndexOf vl w)) := by
    rcases hauto with hc | hc <;> simp [resolveSubvalues, hc, hg, hV]
  rw [hV] at hp
  obtain ⟨l2, hl2⟩ := resolveLabels_values_append ext c vp R O vl
    (resolveSubvalues c vp R O (ValuesVal.arr vl)) p (by rw [← hV] at hp ⊢; exact hp)
  simp only [subvaluesListOf, hsubs, hS] at hv
  simp only [List.mem_filter, decide_eq_true_eq] at hv
  have hmem : v ∈ vl := jsIndexOf_nonneg_mem vl v hv.2
  simp only [valuesListOf, hvals, hl2]
  exact List.mem_append_left l2 hmem

/-- A config whose lines generator yields [1, 2] with auto sublines. -/
def cfg7 : Config :=
  { cfgBase with
    lines := LinesOpt.fn (fun _ => [fin 1, fin 2])
    sublines := SublinesOpt.bool true }

/-- Witness for C7 at the concrete generator config. -/
theorem claim7_witness : fin 2 ∈ valuesListOf (calcLines ext0 cfg7 vp0) := by
  have hsub : fin 2 ∈ subvaluesListOf (calcLines ext0 cfg7 vp0) := by decide
  exact claim7_subline_refinement ext0 cfg7 vp0 _ (fun _ => [fin 1, fin 2]) rfl
    (Or.inl rfl) rfl (fin 2) hsub

/-- A config with explicit tick values [1, 2] and a one-element explicit
labels array. -/
def cfg8 : Config :=
  { cfgBase with
    lines := LinesOpt.vals [fin 1, fin 2]
    labels := LabelsOpt.seq [LabelVal.str "a"] }

/-- Counterexample to claim C8 as stated: an explicit labels array passes
through unchecked, so with two tick values and one label the state has
`values.length = 2` but `labels.length = 1`. -/
theorem claim8_counterexample :
    (valuesListOf (calcLines ext0 cfg8 vp0)).length ≠
      (labelsListOf (calcLines ext0 cfg8 vp0)).length := by
  decide

/-- The label shapes for which the source guarantees length parity: `true`
(labels reuse the values), booleans/undefined/config-level mappings (labels
are null-filled to `values.length`).  Explicit arrays and generator results
pass through with whatever length they have. -/
def labelsLenSafe : LabelsOpt → Prop
  | .bool _ => True
  | .undef => True
  | .mapping _ => True
  | .seq _ => False
  | .fn _ => False

/-- Claim C8, amended: `values.length = labels.length` holds after label
resolution whenever `values` is a list and the labels field is `true`, a
non-true non-array non-function value (null-fill), or a config-level
mapping; an explicit labels array or a generator's returned sequence is
stored as-is, so parity then depends on the supplied length (see the
counterexample). -/
theorem claim8_amended (ext : Externals) (c : Config) (vp : Viewport) (st : State)
    (l : List JSVal)
    (h : calcLines ext c vp = some st) (hvals : st.values = ValuesVal.arr l)
    (hsafe : labelsLenSafe c.labels) :
    ∃ m, st.labels = LabRes.arr m ∧ l.length = m.length := by
  obtain ⟨p, hp, _, _, hv, hlab, _, _⟩ := calcLines_spec ext c vp st h
  rw [hvals] at hv
  cases hcl : c.labels with
  | bool b =>
      simp only [resolveLabels, hcl] at hp
      by_cases hb : b
      · simp only [hb, if_true] at hp
        obtain rfl := Option.some.inj hp
        dsimp only at hv hlab
        rw [← hv] at hlab
        dsimp only at hlab
        exact ⟨l.map LabelVal.num, hlab, by simp⟩
      · simp only [hb, if_false] at hp
        obtain rfl := Option.some.inj hp
        dsimp only at hv hlab
        rw [← hv] at hlab
        exact ⟨nullFill (ValuesVal.arr l), hlab, by simp [nullFill]⟩
  | undef =>
      simp only [resolveLabels, hcl] at hp
      obtain rfl := Option.some.inj hp
      dsimp only at hv hlab
      rw [← hv] at hlab
      exact ⟨nullFill (ValuesVal.arr l), hlab, by simp [nullFill]⟩
  | mapping m =>
      simp only [resolveLabels, hcl] at hp
      obtain rfl := Option.some.inj hp
      dsimp only at hv hlab
      rw [← hv] at hlab
      exact ⟨nullFill (ValuesVal.arr l), hlab, by simp [nullFill]⟩
  | seq ls =>
      rw [hcl] at hsafe
      exact hsafe.elim
  | fn gf =>
      rw [hcl] at hsafe
      exact hsafe.elim

/-- A config with one tick value and `labels: true`. -/
def cfg8w : Config :=
  { cfgBase with lines := LinesOpt.vals [fin 3], labels := LabelsOpt.bool true }

/-- Witness for the amended C8. -/
theorem claim8_witness :
    ∃ st, calcLines ext0 cfg8w vp0 = some st ∧
      ∃ m, st.labels = LabRes.arr m ∧ ([fin 3] : List JSVal).length = m.length :=
  ⟨_, rfl, claim8_amended ext0 cfg8w vp0 _ [fin 3] rfl rfl trivial⟩

/-- An update fragment carrying scale 0 (below cfgBase's minScale 1/4). -/
def opts9 : GridOpts := { x := some (AxisOpt.objOpt { scale := some (fin 0) }) }

/-- Counterexample to claim C9 as stated: update performs NO scale clamp, so
a fragment carrying an out-of-bounds scale (0 < minScale = 1/4) is stored
verbatim and the invariant `minScale ≤ scale` is violated after update. -/
theorem claim9_counterexample :
    (updateConfigs table0 g2 (some opts9) vp0).x.scale = fin 0 ∧
    (updateConfigs table0 g2 (some opts9) vp0).x.minScale = fin (1/4) ∧
    jsLtb (updateConfigs table0 g2 (some opts9) vp0).x.scale
      (updateConfigs table0 g2 (some opts9) vp0).x.minScale = true := by
  refine ⟨by decide, rfl, ?_⟩
  have h1 : (updateConfigs table0 g2 (some opts9) vp0).x.scale = fin 0 := by decide
  have h2 : (updateConfigs table0 g2 (some opts9) vp0).x.minScale = fin (1/4) := rfl
  rw [h1, h2]
  norm_num [jsLtb]

/-- Claim C9, amended.  Part one: the scale produced by the panzoom
handler's zoom branch does satisfy `minScale ≤ scale ≤ maxScale` (for finite
inputs with minScale ≤ maxScale) — the clamp lives in the handler, not in
update, so only interaction-produced scales are bounded.  Part two: when the
range and bounds are finite, within ±Number.MAX_VALUE, and non-degenerate
(min ≤ max − range), the state offset computed by calcLines satisfies
`min ≤ offset ≤ max − range`. -/
theorem claim9_amended :
    (∀ (o : Orient) (c : Config) (vp : Viewport) (e : Ev) (s h dz mnS mxS : ℚ),
      c.disabled = false → c.zoom = true → c.scale = fin s → vp.height = fin h →
      e.dz = fin dz → c.minScale = fin mnS → c.maxScale = fin mxS → 0 < h → mnS ≤ mxS →
      ∃ s2 : ℚ, (panzoomAxis o c vp e).2 = fin s2 ∧ mnS ≤ s2 ∧ s2 ≤ mxS) ∧
    (∀ (ext : Externals) (c : Config) (vp : Viewport) (st : State)
      (mn mx off og rng : ℚ),
      calcLines ext c vp = some st → c.min = fin mn → c.max = fin mx →
      c.offset = fin off → c.origin = fin og →
      getRangeFor c.toConfigData vp = fin rng →
      -maxNumber + 1 ≤ mn → mx ≤ maxNumber → mn ≤ mx - rng →
      ∃ oq : ℚ, st.offset = fin oq ∧ mn ≤ oq ∧ oq ≤ mx - rng) := by
  constructor
  · intro o c vp e s h dz mnS mxS hd hz hs hh hdz hmn hmx hh0 hms
    have hwz : wheelZoom vp e
        = fin (clampQ (-dz) (-h * (3/4)) (h * (3/4)) / h) := by
      rw [wheelZoom, hh, hdz]
      rw [JSVal.jsNeg_fin, JSVal.jsNeg_fin, JSVal.jsMul_fin, JSVal.jsMul_fin, jsClamp_fin,
        jsDiv_fin _ _ (ne_of_gt hh0)]
    refine ⟨clampQ (s * (1 - clampQ (-dz) (-h * (3/4)) (h * (3/4)) / h)) mnS mxS,
      ?_, (clampQ_mem _ mnS mxS hms).1, (clampQ_mem _ mnS mxS hms).2⟩
    cases o <;>
      simp [panzoomAxis, panzoomAxisX, panzoomAxisY, hd, hz, hs, hmn, hmx, hwz,
        JSVal.jsSub_fin, JSVal.jsMul_fin, jsClamp_fin]
  · intro ext c vp st mn mx off og rng hcalc hmn hmx hoff hog hrng h1 h2 h3
    obtain ⟨p, _, hofs, _, _, _, _, _⟩ := calcLines_spec ext c vp st hcalc
    have hraw : calcOffsetRaw c vp = fin (off - rng * clampQ og 0 1) := by
      rw [calcOffsetRaw, hoff, hrng, hog]
      rw [jsClamp_fin, JSVal.jsMul_fin, JSVal.jsSub_fin]
    have hlo : jsMax c.min (fin (-maxNumber + 1)) = fin mn := by
      rw [hmn, JSVal.jsMax_fin, max_eq_left h1]
    have hhi : jsSub (jsMin c.max (fin maxNumber)) (getRangeFor c.toConfigData vp)
        = fin (mx - rng) := by
      rw [hmx, hrng, JSVal.jsMin_fin, min_eq_left h2, JSVal.jsSub_fin]
    have hcl : calcOffsetClamped c vp
        = fin (clampQ (off - rng * clampQ og 0 1) mn (mx - rng)) := by
      rw [calcOffsetClamped, hraw, hlo, hhi, jsClamp_fin]
    exact ⟨clampQ (off - rng * clampQ og 0 1) mn (mx - rng), by rw [hofs, hcl],
      (clampQ_mem _ mn (mx - rng) h3).1, (clampQ_mem _ mn (mx - rng) h3).2⟩

/-- Witness for the amended C9 at the concrete config and wheel event. -/
theorem claim9_witness :
    (∃ s2 : ℚ, (panzoomAxis Orient.x cfgBase vp0 e1).2 = fin s2 ∧ 1/4 ≤ s2 ∧ s2 ≤ 2) ∧
    (∃ st, calcLines ext0 cfgBase vp0 = some st ∧
      ∃ oq : ℚ, st.offset = fin oq ∧ -1000 ≤ oq ∧ oq ≤ 1000 - 100) := by
  constructor
  · exact claim9_amended.1 Orient.x cfgBase vp0 e1 1 100 (-50) (1/4) 2 rfl rfl rfl rfl
      rfl rfl rfl (by norm_num) (by norm_num)
  · obtain ⟨st, hst⟩ : ∃ st, calcLines ext0 cfgBase vp0 = some st := ⟨_, rfl⟩
    exact ⟨st, hst, claim9_amended.2 ext0 cfgBase vp0 st (-1000) 1000 0 (1/2) 100 hst
      rfl rfl rfl rfl (by norm_num [getRangeFor, cfgBase, vp0])
      (by norm_num [maxNumber]) (by norm_num [maxNumber]) (by norm_num)⟩

/-- The per-axis slice of the update triggered by the panzoom handler: merge
the handler's `{offset, scale}` fragment, then normalize the offset. -/
def afterCfg (o : Orient) (c : Config) (vp : Viewport) (e : Ev) : Config :=
  normAxis (extendConfig c (panFrag (panzoomAxis o c vp e))) vp

/-- Evaluation of the unclamped calcLines offset on finite fields with an
origin already inside [0, 1]. -/
theorem calcOffsetRaw_eval (c2 : Config) (vp : Viewport) (rng off2 og2 : ℚ)
    (hr : getRangeFor c2.toConfigData vp = fin rng)
    (ho : c2.offset = fin off2) (hg : c2.origin = fin og2)
    (h0 : 0 ≤ og2) (h1 : og2 ≤ 1) :
    calcOffsetRaw c2 vp = fin (off2 - rng * og2) := by
  rw [calcOffsetRaw, hr, ho, hg, jsClamp_fin, clampQ_id og2 0 1 h0 h1, JSVal.jsMul_fin,
    JSVal.jsSub_fin]

/-- Claim C1, amended: focal-point zoom invariance.  For a wheel event
(dx = dy = 0) on an enabled axis with zoom not disabled, finite fields,
positive width/height/scale, origin in [0,1], when the scale clamp and the
three offset clamps (update's normalization, and the calcLines offset
resolution of the before- and after-states) do not bind, the data value
that getRatio mapped to the pointer's fraction before the interaction maps
to the same fraction in the state computed after applying the resulting
`{offset, scale}` — unconditionally for the x axis, and for the y axis
PROVIDED origin = 1/2 (the default): the y zoom correction uses
`ty = origin - p` where exact preservation would need `(1 - origin) - p`,
so for other origins the focal point drifts (see the counterexample). -/
theorem claim1_focal_zoom (ext : Externals) (o : Orient) (c : Config)
    (l t w h og s0 off dz ex ey : ℚ)
    (vp : Viewport) (e : Ev)
    (hvp : vp = { left := fin l, top := fin t, width := fin w, height := fin h })
    (he : e = { dx := fin 0, dy := fin 0, dz := fin dz, x := fin ex, y := fin ey })
    (horient : c.orientation = o)
    (hd : c.disabled = false) (hz : c.zoom = true)
    (hoff : c.offset = fin off) (hs : c.scale = fin s0) (hog : c.origin = fin og)
    (hw : 0 < w) (hh : 0 < h) (hs0 : 0 < s0)
    (ho0 : 0 ≤ og) (ho1 : og ≤ 1)
    (hyorg : o = Orient.y → og = 1/2)
    (hclampS : jsClamp (jsMul c.scale (jsSub (fin 1) (wheelZoom vp e))) c.minScale c.maxScale
      = jsMul c.scale (jsSub (fin 1) (wheelZoom vp e)))
    (hclampU : normAxis (extendConfig c (panFrag (panzoomAxis o c vp e))) vp
      = extendConfig c (panFrag (panzoomAxis o c vp e)))
    (hclampB : calcOffsetClamped c vp = calcOffsetRaw c vp)
    (hclampA : calcOffsetClamped (afterCfg o c vp e) vp = calcOffsetRaw (afterCfg o c vp e) vp)
    (stB stA : State)
    (hstB : calcLines ext c vp = some stB)
    (hstA : calcLines ext (afterCfg o c vp e) vp = some stA) :
    getRatioFor o (valueAtFrac o (pointerFrac o vp e) stB.range stB.offset)
        stB.range stB.offset = pointerFrac o vp e ∧
    getRatioFor o (valueAtFrac o (pointerFrac o vp e) stB.range stB.offset)
        stA.range stA.offset = pointerFrac o vp e := by
  subst hvp he
  obtain ⟨_, _, hOB, hRB, _, _, _, _⟩ := calcLines_spec ext c _ stB hstB
  obtain ⟨_, _, hOA, hRA, _, _, _, _⟩ := calcLines_spec ext (afterCfg o c _ _) _ stA hstA
  -- the wheel zoom factor
  have hwz : wheelZoom { left := fin l, top := fin t, width := fin w, height := fin h }
      { dx := fin 0, dy := fin 0, dz := fin dz, x := fin ex, y := fin ey }
      = fin (clampQ (-dz) (-h * (3/4)) (h * (3/4)) / h) := by
    rw [wheelZoom]
    dsimp only
    rw [JSVal.jsNeg_fin, JSVal.jsNeg_fin, JSVal.jsMul_fin, JSVal.jsMul_fin, jsClamp_fin,
      jsDiv_fin _ _ (ne_of_gt hh)]
  set zq : ℚ := clampQ (-dz) (-h * (3/4)) (h * (3/4)) / h with hzq
  have hzmem := clampQ_mem (-dz) (-h * (3/4)) (h * (3/4)) (by linarith)
  have hz34 : zq ≤ 3/4 := by
    rw [hzq, div_le_iff₀ hh]
    calc clampQ (-dz) (-h * (3/4)) (h * (3/4)) ≤ h * (3/4) := hzmem.2
      _ = 3/4 * h := by ring
  have hs1pos : 0 < s0 * (1 - zq) := mul_pos hs0 (by linarith)
  have hws0 : w * s0 ≠ 0 := ne_of_gt (mul_pos hw hs0)
  have hws1 : w * (s0 * (1 - zq)) ≠ 0 := ne_of_gt (mul_pos hw hs1pos)
  have hhs1 : h * (s0 * (1 - zq)) ≠ 0 := ne_of_gt (mul_pos hh hs1pos)
  have hhs0 : h * s0 ≠ 0 := ne_of_gt (mul_pos hh hs0)
  have hSval : jsClamp (jsMul c.scale (jsSub (fin 1)
      (wheelZoom { left := fin l, top := fin t, width := fin w, height := fin h }
        { dx := fin 0, dy := fin 0, dz := fin dz, x := fin ex, y := fin ey })))
      c.minScale c.maxScale = fin (s0 * (1 - zq)) := by
    rw [hclampS, hwz, hs, JSVal.jsSub_fin, JSVal.jsMul_fin]
  cases o with
  | x =>
      have hRange : getRangeFor c.toConfigData
          { left := fin l, top := fin t, width := fin w, height := fin h } = fin (w * s0) := by
        simp [getRangeFor, horient, hs]
      have hOBv : stB.offset = fin (off - w * s0 * og) := by
        rw [hOB, hclampB, calcOffsetRaw_eval c _ (w * s0) off og hRange hoff hog ho0 ho1]
      have hRBv : stB.range = fin (w * s0) := by rw [hRB, hRange]
      have hpan : (if c.pan = true then jsSub c.offset (jsMul c.scale (fin 0)) else c.offset)
          = fin off := by
        cases hp : c.pan <;> simp [hoff, hs]
      have hpz : panzoomAxisX c
          { left := fin l, top := fin t, width := fin w, height := fin h }
          { dx := fin 0, dy := fin 0, dz := fin dz, x := fin ex, y := fin ey }
          = (fin (off - w * (s0 * (1 - zq) - s0) * ((ex - l) / w - og)),
             fin (s0 * (1 - zq))) := by
        rw [panzoomAxisX]
        simp only [hd, hz, Bool.false_eq_true, if_false, if_true, hpan]
        rw [hSval, hs, hog]
        show (jsSub (fin off) (jsMul (jsMul (fin w) (jsSub (fin (s0 * (1 - zq))) (fin s0)))
            (jsSub (jsDiv (jsSub (fin ex) (fin l)) (fin w)) (jsOrZero (fin og)))),
          fin (s0 * (1 - zq))) = _
        rw [JSVal.jsOrZero_fin,
          show jsSub (fin ex) (fin l) = fin (ex - l) from JSVal.jsSub_fin ex l,
          jsDiv_fin _ _ (ne_of_gt hw), JSVal.jsSub_fin, JSVal.jsSub_fin, JSVal.jsMul_fin,
          JSVal.jsMul_fin, JSVal.jsSub_fin]
      have hpA : panzoomAxis Orient.x c
          { left := fin l, top := fin t, width := fin w, height := fin h }
          { dx := fin 0, dy := fin 0, dz := fin dz, x := fin ex, y := fin ey }
          = panzoomAxisX c _ _ := rfl
      have hA : afterCfg Orient.x c
          { left := fin l, top := fin t, width := fin w, height := fin h }
          { dx := fin 0, dy := fin 0, dz := fin dz, x := fin ex, y := fin ey }
          = { c with offset := fin (off - w * (s0 * (1 - zq) - s0) * ((ex - l) / w - og)),
                     scale := fin (s0 * (1 - zq)) } := by
        rw [afterCfg, hclampU, hpA, hpz, extendConfig_panFrag]
      have hRangeA : getRangeFor (afterCfg Orient.x c
          { left := fin l, top := fin t, width := fin w, height := fin h }
          { dx := fin 0, dy := fin 0, dz := fin dz, x := fin ex, y := fin ey }).toConfigData
          { left := fin l, top := fin t, width := fin w, height := fin h }
          = fin (w * (s0 * (1 - zq))) := by
        rw [hA]
        simp [getRangeFor, horient]
      have hAoff : (afterCfg Orient.x c
          { left := fin l, top := fin t, width := fin w, height := fin h }
          { dx := fin 0, dy := fin 0, dz := fin dz, x := fin ex, y := fin ey }).offset
          = fin (off - w * (s0 * (1 - zq) - s0) * ((ex - l) / w - og)) := by
        rw [hA]
      have hAorigin : (afterCfg Orient.x c
          { left := fin l, top := fin t, width := fin w, height := fin h }
          { dx := fin 0, dy := fin 0, dz := fin dz, x := fin ex, y := fin ey }).origin
          = fin og := by
        rw [hA]; exact hog
      have hOAv : stA.offset = fin (off - w * (s0 * (1 - zq) - s0) * ((ex - l) / w - og)
          - w * (s0 * (1 - zq)) * og) := by
        rw [hOA, hclampA,
          calcOffsetRaw_eval _ _ (w * (s0 * (1 - zq)))
            (off - w * (s0 * (1 - zq) - s0) * ((ex - l) / w - og)) og
            hRangeA hAoff hAorigin ho0 ho1]
      have hRAv : stA.range = fin (w * (s0 * (1 - zq))) := by rw [hRA, hRangeA]
      have hpf : pointerFrac Orient.x
          { left := fin l, top := fin t, width := fin w, height := fin h }
          { dx := fin 0, dy := fin 0, dz := fin dz, x := fin ex, y := fin ey }
          = fin ((ex - l) / w) := by
        dsimp [pointerFrac]
        rw [JSVal.jsSub_fin, jsDiv_fin _ _ (ne_of_gt hw)]
      rw [hpf, hOBv, hRBv, hOAv, hRAv]
      dsimp only [valueAtFrac, getRatioFor]
      rw [JSVal.jsMul_fin, JSVal.jsAdd_fin, JSVal.jsSub_fin,
        jsDiv_fin _ _ hws0, JSVal.jsSub_fin, jsDiv_fin _ _ hws1]
      constructor
      · rw [JSVal.fin.injEq]
        field_simp
        ring
      · rw [JSVal.fin.injEq]
        field_simp
        ring
  | y =>
      have hog12 : og = 1/2 := hyorg rfl
      subst hog12
      have hRange : getRangeFor c.toConfigData
          { left := fin l, top := fin t, width := fin w, height := fin h } = fin (h * s0) := by
        simp [getRangeFor, horient, hs]
      have hOBv : stB.offset = fin (off - h * s0 * (1/2)) := by
        rw [hOB, hclampB, calcOffsetRaw_eval c _ (h * s0) off (1/2) hRange hoff hog ho0 ho1]
      have hRBv : stB.range = fin (h * s0) := by rw [hRB, hRange]
      have hpan : (if c.pan = true then jsAdd c.offset (jsMul c.scale (fin 0)) else c.offset)
          = fin off := by
        cases hp : c.pan <;> simp [hoff, hs]
      have hpz : panzoomAxisY c
          { left := fin l, top := fin t, width := fin w, height := fin h }
          { dx := fin 0, dy := fin 0, dz := fin dz, x := fin ex, y := fin ey }
          = (fin (off - h * (s0 * (1 - zq) - s0) * (1/2 - (ey - t) / h)),
             fin (s0 * (1 - zq))) := by
        rw [panzoomAxisY]
        simp only [hd, hz, Bool.false_eq_true, if_false, if_true, hpan]
        rw [hSval, hs, hog]
        show (jsSub (fin off) (jsMul (jsMul (fin h) (jsSub (fin (s0 * (1 - zq))) (fin s0)))
            (jsSub (jsOrZero (fin (1/2))) (jsDiv (jsSub (fin ey) (fin t)) (fin h)))),
          fin (s0 * (1 - zq))) = _
        rw [JSVal.jsOrZero_fin,
          show jsSub (fin ey) (fin t) = fin (ey - t) from JSVal.jsSub_fin ey t,
          jsDiv_fin _ _ (ne_of_gt hh), JSVal.jsSub_fin, JSVal.jsSub_fin, JSVal.jsMul_fin,
          JSVal.jsMul_fin, JSVal.jsSub_fin]
      have hpA : panzoomAxis Orient.y c
          { left := fin l, top := fin t, width := fin w, height := fin h }
          { dx := fin 0, dy := fin 0, dz := fin dz, x := fin ex, y := fin ey }
          = panzoomAxisY c _ _ := rfl
      have hA : afterCfg Orient.y c
          { left := fin l, top := fin t, width := fin w, height := fin h }
          { dx := fin 0, dy := fin 0, dz := fin dz, x := fin ex, y := fin ey }
          = { c with offset := fin (off - h * (s0 * (1 - zq) - s0) * (1/2 - (ey - t) / h)),
                     scale := fin (s0 * (1 - zq)) } := by
        rw [afterCfg, hclampU, hpA, hpz, extendConfig_panFrag]
      have hRangeA : getRangeFor (afterCfg Orient.y c
          { left := fin l, top := fin t, width := fin w, height := fin h }
          { dx := fin 0, dy := fin 0, dz := fin dz, x := fin ex, y := fin ey }).toConfigData
          { left := fin l, top := fin t, width := fin w, height := fin h }
          = fin (h * (s0 * (1 - zq))) := by
        rw [hA]
        simp [getRangeFor, horient]
      have hAoff : (afterCfg Orient.y c
          { left := fin l, top := fin t, width := fin w, height := fin h }
          { dx := fin 0, dy := fin 0, dz := fin dz, x := fin ex, y := fin ey }).offset
          = fin (off - h * (s0 * (1 - zq) - s0) * (1/2 - (ey - t) / h)) := by
        rw [hA]
      have hAorigin : (afterCfg Orient.y c
          { left := fin l, top := fin t, width := fin w, height := fin h }
          { dx := fin 0, dy := fin 0, dz := fin dz, x := fin ex, y := fin ey }).origin
          = fin (1/2) := by
        rw [hA]; exact hog
      have hOAv : stA.offset = fin (off - h * (s0 * (1 - zq) - s0) * (1/2 - (ey - t) / h)
          - h * (s0 * (1 - zq)) * (1/2)) := by
        rw [hOA, hclampA,
          calcOffsetRaw_eval _ _ (h * (s0 * (1 - zq)))
            (off - h * (s0 * (1 - zq) - s0) * (1/2 - (ey - t) / h)) (1/2)
            hRangeA hAoff hAorigin ho0 ho1]
      have hRAv : stA.range = fin (h * (s0 * (1 - zq))) := by rw [hRA, hRangeA]
      have hpf : pointerFrac Orient.y
          { left := fin l, top := fin t, width := fin w, height := fin h }
          { dx := fin 0, dy := fin 0, dz := fin dz, x := fin ex, y := fin ey }
          = fin ((ey - t) / h) := by
        dsimp [pointerFrac]
        rw [JSVal.jsSub_fin, jsDiv_fin _ _ (ne_of_gt hh)]
      rw [hpf, hOBv, hRBv, hOAv, hRAv]
      dsimp only [valueAtFrac, getRatioFor]
      rw [JSVal.jsSub_fin, JSVal.jsMul_fin, JSVal.jsAdd_fin, JSVal.jsSub_fin,
        jsDiv_fin _ _ hhs0, JSVal.jsSub_fin, JSVal.jsSub_fin, jsDiv_fin _ _ hhs1,
        JSVal.jsSub_fin]
      constructor
      · rw [JSVal.fin.injEq]
        field_simp
        ring
      · rw [JSVal.fin.injEq]
        field_simp
        ring

/-- A y-oriented config with origin 0 (all other fields as cfgBase; every
clamp in the claim's hypotheses is non-binding at this input). -/
def cfgY0 : Config := { cfgBase with orientation := Orient.y, origin := fin 0 }

/-- Counterexample to claim C1 as stated: y axis with origin 0, viewport
[0,0,100,100], wheel dz = -50 (zoom factor 1/2) at pointer y = 25.  The
data value 75 sits at getRatio fraction 1/4 = (e.y-top)/height before the
interaction, but at fraction -3/4 after it — the point under the cursor
moves.  All of the claim's hypotheses hold here: the new scale 1/2 is
strictly inside [1/4, 2] and none of the offset clamps binds. -/
theorem claim1_counterexample :
    ratioOf Orient.y (fin 75) (calcLines ext0 cfgY0 vp0) = fin (1/4) ∧
    ratioOf Orient.y (fin 75) (calcLines ext0 (afterCfg Orient.y cfgY0 vp0 e1) vp0)
      = fin (-(3/4)) ∧
    (fin (-(3/4)) : JSVal) ≠ fin (1/4) := by
  refine ⟨?_, ?_, by norm_num⟩ <;>
    norm_num [ratioOf, getRatioFor, calcLines, resolveValues, resolveSubvalues,
      resolveLabels, nullFill, calcOffsetClamped, calcOffsetRaw, getRangeFor, afterCfg,
      normAxis, extendConfig, panFrag, panzoomAxis, panzoomAxisY, wheelZoom, jsClamp,
      jsMax, jsMin, jsLtb, jsMul, jsAdd, jsSub, jsNeg, jsDiv, jsOrZero, truthy,
      cfgY0, cfgBase, vp0, e1, maxNumber, ext0, stateOffsetOf, stateRangeOf]

/-- Witness for the amended C1 on the x axis: origin 1/2, scale 1, wheel
dz = -50 at pointer x = 25; both ratios equal the pointer fraction 1/4. -/
theorem claim1_witness :
    ∃ stB stA, calcLines ext0 cfgBase vp0 = some stB ∧
      calcLines ext0 (afterCfg Orient.x cfgBase vp0 e1) vp0 = some stA ∧
      getRatioFor Orient.x
        (valueAtFrac Orient.x (pointerFrac Orient.x vp0 e1) stB.range stB.offset)
        stB.range stB.offset = pointerFrac Orient.x vp0 e1 ∧
      getRatioFor Orient.x
        (valueAtFrac Orient.x (pointerFrac Orient.x vp0 e1) stB.range stB.offset)
        stA.range stA.offset = pointerFrac Orient.x vp0 e1 := by
  obtain ⟨stB, hstB⟩ : ∃ st, calcLines ext0 cfgBase vp0 = some st := ⟨_, rfl⟩
  obtain ⟨stA, hstA⟩ : ∃ st, calcLines ext0 (afterCfg Orient.x cfgBase vp0 e1) vp0 = some st :=
    ⟨_, rfl⟩
  have hmain := claim1_focal_zoom ext0 Orient.x cfgBase 0 0 100 100 (1/2) 1 0 (-50) 25 25
    vp0 e1 rfl rfl rfl rfl rfl rfl rfl rfl (by norm_num) (by norm_num) (by norm_num)
    (by norm_num) (by norm_num) (fun hcon => rfl)
    (by norm_num [wheelZoom, jsClamp, jsMax, jsMin, jsLtb, jsMul, jsAdd, jsSub, jsNeg,
      jsDiv, cfgBase, vp0, e1])
    (by norm_num [normAxis, extendConfig, panFrag, panzoomAxis, panzoomAxisX, wheelZoom,
      getRangeFor, jsClamp, jsMax, jsMin, jsLtb, jsMul, jsAdd, jsSub, jsNeg, jsDiv,
      jsOrZero, truthy, cfgBase, vp0, e1])
    (by norm_num [calcOffsetClamped, calcOffsetRaw, getRangeFor, jsClamp, jsMax, jsMin,
      jsLtb, jsMul, jsAdd, jsSub, jsNeg, cfgBase, vp0, maxNumber])
    (by norm_num [afterCfg, normAxis, extendConfig, panFrag, panzoomAxis, panzoomAxisX,
      wheelZoom, calcOffsetClamped, calcOffsetRaw, getRangeFor, jsClamp, jsMax, jsMin,
      jsLtb, jsMul, jsAdd, jsSub, jsNeg, jsDiv, jsOrZero, truthy, cfgBase, vp0, e1,
      maxNumber])
    stB stA hstB hstA
  exact ⟨stB, stA, hstB, hstA, hmain.1, hmain.2⟩
